import Mathlib

/-!
Verification of the israeli-iptv sources: a shallow embedding of the
cache layer (`base_provider.py`), the HLS manifest rewriter
(`server.py`), the Kan scrape-and-extract resolver (`kan_module.py`),
the Keshet ticket/CDN link selection (`keshet_module.py`) and the
Reshet13 static-table resolver (`reshet13_module.py`), together with
theorems settling the specification claims.

Conventions:
* machine time (`time.time()`) is an integer number of seconds, passed
  explicitly as `now`;
* network fetches are explicit oracle functions passed as parameters;
  `requests`-level failures are folded into the oracle's return value
  exactly as the source's own try/except wrappers do;
* a Python `None`-or-value result becomes `Option`; an exception that
  escapes a function becomes `Except PyErr`.
-/

namespace IPTV

/-! ## Python string primitives -/

/-- Python whitespace (the characters stripped by `str.strip` and matched
by a whitespace class in the `re` module): space, tab, newline, carriage
return, vertical tab, form feed. -/
def pyIsSpace (c : Char) : Bool :=
  c = ' ' || c = '\t' || c = '\n' || c = '\r' || c = '\x0b' || c = '\x0c'

/-- Python `str.rstrip()`. -/
def rstripPy (s : String) : String :=
  String.mk ((s.toList.reverse.dropWhile pyIsSpace).reverse)

/-- Python `str.lstrip()`. -/
def lstripPy (s : String) : String :=
  String.mk (s.toList.dropWhile pyIsSpace)

/-- Python `str.strip()`. -/
def stripPy (s : String) : String :=
  lstripPy (rstripPy s)

/-- Does the pattern occur in `s` starting at character index `i`? -/
def occursAt (s pat : List Char) (i : Nat) : Bool :=
  pat.isPrefixOf (s.drop i)

/-- Python `pat in s` (substring containment). -/
def containsSub (s pat : String) : Bool :=
  (List.range (s.length + 1)).any (occursAt s.toList pat.toList)

/-- Python `s.rfind(pat)`: highest index of an occurrence, `-1` if none. -/
def pyRFind (s pat : String) : Int :=
  match ((List.range (s.length + 1)).filter (occursAt s.toList pat.toList)).getLast? with
  | some i => (i : Int)
  | none => -1

/-- Python `s.find(c)` for a single character: first index or `-1`. -/
def pyFindChar (s : String) (c : Char) : Int :=
  match s.toList.findIdx? (· = c) with
  | some i => (i : Int)
  | none => -1

/-- Python `s[i:]` for a nonnegative index. -/
def pyDropFrom (s : String) (i : Nat) : String :=
  String.mk (s.toList.drop i)

/-- Python `s[:i]` for a nonnegative index. -/
def pyTakeTo (s : String) (i : Nat) : String :=
  String.mk (s.toList.take i)

/-- Python `s.startswith(pat)`. -/
def pyStartsWith (s pat : String) : Bool :=
  pat.toList.isPrefixOf s.toList

/-- Python `s.endswith(pat)`. -/
def pyEndsWith (s pat : String) : Bool :=
  pat.toList.isSuffixOf s.toList

/-- Python `s.upper()` (ASCII, which covers every use in the source). -/
def pyUpper (s : String) : String :=
  String.mk (s.toList.map Char.toUpper)

/-- Helper for `pyReplace`.  The fuel argument starts at the length of
the character list and bounds the recursion: every step consumes at
least one character when the pattern is nonempty (an empty pattern is
never passed by the embedded code and is left unreplaced here). -/
def pyReplaceGo (pat rep : List Char) : Nat → List Char → List Char
  | 0, l => l
  | fuel + 1, l =>
    match l with
    | [] => []
    | c :: rest =>
      if pat ≠ [] ∧ pat.isPrefixOf (c :: rest) then
        rep ++ pyReplaceGo pat rep fuel ((c :: rest).drop pat.length)
      else
        c :: pyReplaceGo pat rep fuel rest

/-- Python `s.replace(pat, rep)`: replace all occurrences, scanning left
to right without overlap. -/
def pyReplace (s pat rep : String) : String :=
  String.mk (pyReplaceGo pat.toList rep.toList s.toList.length s.toList)

/-- Helper for `pySplitNl`: the accumulator holds the current line,
reversed. -/
def splitNlGo : List Char → List Char → List String
  | acc, [] => [String.mk acc.reverse]
  | acc, c :: rest =>
    if c = '\n' then String.mk acc.reverse :: splitNlGo [] rest
    else splitNlGo (c :: acc) rest

/-- Python `s.split("\n")` (also the line decomposition a MULTILINE
regex works with): the empty string yields `[""]`, and a trailing
newline yields a final `""`. -/
def pySplitNl (s : String) : List String :=
  splitNlGo [] s.toList

/-- Python `sep.join(parts)`. -/
def pyJoin (sep : String) : List String → String
  | [] => ""
  | l :: ls =>
    match ls with
    | [] => l
    | _ :: _ => l ++ sep ++ pyJoin sep ls

/-- Python `"\n".join(lines)`. -/
def joinNl (ls : List String) : String :=
  pyJoin "\n" ls

/-- Helper for `pyTitle`: the Boolean records whether the previous
character was alphabetic. -/
def pyTitleGo : Bool → List Char → List Char
  | _, [] => []
  | prevAlpha, c :: rest =>
    (if c.isAlpha then (if prevAlpha then c.toLower else c.toUpper) else c)
      :: pyTitleGo c.isAlpha rest

/-- Python `str.title()`: an alphabetic character is uppercased when the
previous character is not alphabetic, lowercased otherwise. -/
def pyTitle (s : String) : String :=
  String.mk (pyTitleGo false s.toList)

/-! ## base_provider.py — the cache model

`BaseProvider` keeps two dictionaries: `_cache` (content cache, entries
`\x7b'data': value, 't': timestamp\x7d`) and `_link_cache` (resolved-URL
cache, entries `\x7b'url': str, 't': timestamp\x7d`).  Entry fields are
modelled as optional so that a malformed entry (e.g. a missing
timestamp, which the spec requires to behave as a miss) is expressible. -/

/-- One record of `BaseProvider._cache`. -/
structure CacheEntry (V : Type) where
  data : Option V := none
  t : Option Int := none
deriving Repr, DecidableEq

/-- The content cache `BaseProvider._cache`: key → entry. -/
def Cache (V : Type) : Type :=
  String → Option (CacheEntry V)

/-- A provider's content cache at construction time (empty dict). -/
def emptyCache (V : Type) : Cache V :=
  fun _ => none

/-- `BaseProvider.LINK_CACHE_TIME` (10 minutes, in seconds). -/
def LINK_CACHE_TIME : Int := 10 * 60

/-- `BaseProvider._is_cache_valid`, as a function of the entry's `'t'`
field.  The source first rejects a falsy entry or one without a `'t'`
key (both cases are `tstamp = none` here) and otherwise tests
`time.time() - cache_entry['t'] < ttl`. -/
def is_cache_valid (tstamp : Option Int) (ttl now : Int) : Bool :=
  match tstamp with
  | none => false
  | some t0 => now - t0 < ttl

/-- `BaseProvider._get_from_cache`: a `none` ttl selects
`LINK_CACHE_TIME`; a hit returns `cache_entry.get('data')`. -/
def get_from_cache {V : Type} (c : Cache V) (key : String) (ttl? : Option Int)
    (now : Int) : Option V :=
  let ttl := ttl?.getD LINK_CACHE_TIME
  match c key with
  | none => none
  | some e => if is_cache_valid e.t ttl now then e.data else none

/-- `BaseProvider._set_cache`. -/
def set_cache {V : Type} (c : Cache V) (key : String) (v : V) (now : Int) : Cache V :=
  fun k => if k = key then some { data := some v, t := some now } else c k

/-- One record of `BaseProvider._link_cache`. -/
structure LinkCacheEntry where
  url : Option String := none
  t : Option Int := none
deriving Repr, DecidableEq

/-- The link cache `BaseProvider._link_cache`: key → entry. -/
def LinkCache : Type :=
  String → Option LinkCacheEntry

/-- A provider's link cache at construction time (empty dict). -/
def emptyLinkCache : LinkCache :=
  fun _ => none

/-- `BaseProvider._get_from_link_cache`: validity uses the fixed
`LINK_CACHE_TIME`; a hit returns `cache_entry.get('url')`. -/
def get_from_link_cache (c : LinkCache) (key : String) (now : Int) : Option String :=
  match c key with
  | none => none
  | some e => if is_cache_valid e.t LINK_CACHE_TIME now then e.url else none

/-- `BaseProvider._set_link_cache`. -/
def set_link_cache (c : LinkCache) (key url : String) (now : Int) : LinkCache :=
  fun k => if k = key then some { url := some url, t := some now } else c k

/-! ## server.py — the variant-manifest rewriter

The source compiles `TS_LINE_REGEX = ^(?!#)(.+\.ts)\s*$` with
`re.MULTILINE`, and `rewrite_variant_for_ts` replaces each match by
`base_url + "/segments/" + match.group(1).strip()`.

Line-level semantics of this substitution, derived by hand from the
Python `re` engine (`^` anchors at line starts; `.` does not cross a
newline while `\s` does; `$` holds at end of input or before a newline):

* a match exists at a line iff the line does not start with `#` and its
  right-stripped text ends in `.ts`; the captured group is exactly the
  right-stripped line (the greedy `.+` backtracks to the rightmost
  `.ts` whose remainder is whitespace);
* the trailing `\s*` then consumes the whitespace run following the
  group — crossing newlines — and backtracks until `$` holds: it
  swallows every whitespace-only line up to (but not including) the
  first following line containing a non-whitespace character, or
  everything to the end of input if no such line exists.  The swallowed
  whitespace-only lines disappear from the output;
* scanning resumes at the next remaining line start.

`rewriteLinesGo` realises this on the list of lines; the Boolean mode
is `true` exactly while the previous replacement's trailing `\s*` is
still absorbing whitespace-only lines. -/

/-- A whitespace-only manifest line (including the empty line). -/
def isWsOnly (l : String) : Bool :=
  l.toList.all pyIsSpace

/-- Does `TS_LINE_REGEX` match at this line?  See the derivation above:
the line must not begin with the comment marker and its right-stripped
text must end in `.ts`; the group's `.+` additionally needs at least one
character before the final `.ts`, so the right-stripped text has at
least four characters (a bare `.ts` line is not replaced). -/
def tsLineMatches (l : String) : Bool :=
  !(pyStartsWith l "#") && pyEndsWith (rstripPy l) ".ts" && decide (4 ≤ (rstripPy l).length)

/-- The replacement `_sub` produces for a matching line: the captured
group is the right-stripped line, `.strip()` is applied to it, and the
result is prefixed with `base_url + "/segments/"`. -/
def tsSub (base l : String) : String :=
  base ++ "/segments/" ++ stripPy (rstripPy l)

/-- `TS_LINE_REGEX.sub(_sub, variant_text)` on the list of lines; the
mode flag is described in the section comment. -/
def rewriteLinesGo (base : String) : Bool → List String → List String
  | _, [] => []
  | absorb, l :: ls =>
    if absorb && isWsOnly l then rewriteLinesGo base true ls
    else if tsLineMatches l then tsSub base l :: rewriteLinesGo base true ls
    else l :: rewriteLinesGo base false ls

/-- The substitution applied to a full list of lines (initial mode: no
pending absorption). -/
def rewriteLines (base : String) (ls : List String) : List String :=
  rewriteLinesGo base false ls

/-- `rewrite_variant_for_ts(variant_text)` from server.py, with the
request-derived `base_url` made an explicit parameter. -/
def rewrite_variant_for_ts (base variant_text : String) : String :=
  joinNl (rewriteLines base (pySplitNl variant_text))

/-- The side condition under which the rewrite is per-line: no
replaceable segment line is immediately followed by a whitespace-only
line. -/
def noBlankAfterTs : List String → Bool
  | [] => true
  | a :: rest =>
    (match rest with
     | [] => true
     | b :: _ => !(tsLineMatches a) || !(isWsOnly b)) && noBlankAfterTs rest

/-! ## Data model: Channel and VOD (base_provider.py) -/

/-- The `Channel` dataclass.  `extra_data` is a string-keyed dict in the
source; no embedded operation reads or writes it. -/
structure Channel where
  id : String
  name : String
  url : String
  logo : String := ""
  provider : String := ""
  group_title : String := ""
  extra_data : List (String × String) := []
deriving Repr, DecidableEq

/-- The `VOD` dataclass. -/
structure VOD where
  id : String
  name : String
  url : String
  poster : String := ""
  provider : String := ""
  description : String := ""
  extra_data : List (String × String) := []
deriving Repr, DecidableEq

/-- `BaseProvider.USER_AGENT`. -/
def USER_AGENT : String :=
  "Mozilla/5.0 (Windows NT 10.0; Win64; x64) AppleWebKit/537.36 (KHTML, like Gecko) Chrome/122.0.0.0 Safari/537.36"

/-- The header dictionary returned by `get_headers`, restricted to the
two keys the playlist generator reads: a User-Agent (always present)
and an optional Referer. -/
structure Headers where
  userAgent : String
  referer : Option String := none
deriving Repr, DecidableEq

/-- Python truthiness of an optional string (`if cached_url:`): false
for `None` and for the empty string. -/
def pyTruthy (s? : Option String) : Bool :=
  match s? with
  | some v => v ≠ ""
  | none => false

/-- `BaseProvider.generate_m3u8_entry`, parameterised by the provider
name and its `get_headers`. -/
def generate_m3u8_entry (provider_name : String) (get_headers : String → Headers)
    (channel : Channel) (use_headers : Bool) : String :=
  let extinf_parts := ["#EXTINF:-1"]
  let extinf_parts :=
    if channel.id ≠ "" then extinf_parts ++ ["tvg-id=\"" ++ channel.id ++ "\""]
    else extinf_parts
  let extinf_parts :=
    if channel.logo ≠ "" then extinf_parts ++ ["tvg-logo=\"" ++ channel.logo ++ "\""]
    else extinf_parts
  let extinf_parts :=
    if channel.group_title ≠ "" then
      extinf_parts ++ ["group-title=\"" ++ channel.group_title ++ "\""]
    else if provider_name ≠ "" then
      extinf_parts ++ ["group-title=\"" ++ pyTitle provider_name ++ "\""]
    else extinf_parts
  let entry := pyJoin " " extinf_parts ++ "," ++ channel.name ++ "\n"
  let entry :=
    if use_headers then
      let headers := get_headers channel.id
      let entry := entry ++ "#EXTVLCOPT:http-user-agent=" ++ headers.userAgent ++ "\n"
      match headers.referer with
      | some r => entry ++ "#EXTVLCOPT:http-referrer=" ++ r ++ "\n"
      | none => entry
    else entry
  entry ++ channel.url ++ "\n"

/-! ## reshet13_module.py — the static-table resolver -/

/-- One record of `Reshet13Provider.CHANNEL_13_STREAMS`; every key any
embedded operation reads is present (`link`, `referer`), the others are
carried for completeness. -/
structure StreamData where
  link : String
  referer : Option String := none
  klt : Option String := none
  brv : Option String := none
  cst : Option String := none
deriving Repr, DecidableEq

/-- `Reshet13Provider.CHANNEL_13_STREAMS`. -/
def CHANNEL_13_STREAMS : List (String × StreamData) :=
  [ ("13b",
     { referer := some "https://13tv.co.il/live/",
       link := "https://d18b0e6mopany4.cloudfront.net/out/v1/2f2bc414a3db4698a8e94b89eaf2da2a/index.m3u8" }),
    ("13b2",
     { klt := some "1_pjrmtdaf",
       link := "https://d2xg1g9o5vns8m.cloudfront.net/out/v1/0855d703f7d5436fae6a9c7ce8ca5075/index.m3u8",
       referer := some "https://13tv.co.il/allshows/2010263/" }),
    ("13c",
     { referer := some "https://13tv.co.il/live/",
       link := "https://reshet.g-mana.live/media/4607e158-e4d4-4e18-9160-3dc3ea9bc677/mainManifest.m3u8" }),
    ("bb",
     { brv := some "videoId", cst := some "26", klt := some "1_6fr5xbw2",
       referer := some "https://13tv.co.il/home/bb-livestream/",
       link := "https://d2lckchr9cxrss.cloudfront.net/out/v1/c73af7694cce4767888c08a7534b503c/index.m3u8" }),
    ("13comedy",
     { klt := some "adsadadas",
       link := "https://d15ds134q59udk.cloudfront.net/out/v1/fbba879221d045598540ee783b140fe2/index.m3u8",
       referer := some "https://13tv.co.il/allshows/2605018/" }),
    ("13nofesh",
     { klt := some "1_g7lqf2yg",
       link := "https://d1yd8hohnldm33.cloudfront.net/out/v1/19dee23c2cc24f689bd4e1288661ee0c/index.m3u8",
       referer := some "https://13tv.co.il/allshows/2395628/" }),
    ("13reality",
     { klt := some "1_khfzmmtx",
       link := "https://d2dffl3588mvfk.cloudfront.net/out/v1/d8e15050ca4148aab0ee387a5e2eb46b/index.m3u8",
       referer := some "https://13tv.co.il/allshows/2395629/" }) ]

/-- Python `channel_id in CHANNEL_13_STREAMS` / `CHANNEL_13_STREAMS[channel_id]`. -/
def lookupStream (channel_id : String) : Option StreamData :=
  (CHANNEL_13_STREAMS.find? (fun q => q.1 == channel_id)).map Prod.snd

/-- `Reshet13Provider.CHANNEL_LOGOS`. -/
def CHANNEL_LOGOS : List (String × String) :=
  [ ("13", "https://upload.wikimedia.org/wikipedia/he/thumb/2/2e/Reshet_13_logo.svg/1200px-Reshet_13_logo.svg.png"),
    ("13b", "https://upload.wikimedia.org/wikipedia/he/thumb/2/2e/Reshet_13_logo.svg/1200px-Reshet_13_logo.svg.png"),
    ("13c", "https://upload.wikimedia.org/wikipedia/he/thumb/2/2e/Reshet_13_logo.svg/1200px-Reshet_13_logo.svg.png"),
    ("bb", "https://img.mako.co.il/2023/01/15/bigblogo_aa.png"),
    ("13comedy", "https://img.mako.co.il/2020/08/04/COMEDY_LOGO0_a.jpg"),
    ("13nofesh", "https://img.mako.co.il/2020/08/04/ADVENTURE_LOGO_a.jpg"),
    ("13reality", "https://img.mako.co.il/2020/08/04/REALITY_LOGO0_a.jpg"),
    ("13b2", "https://upload.wikimedia.org/wikipedia/he/thumb/2/2e/Reshet_13_logo.svg/1200px-Reshet_13_logo.svg.png") ]

/-- `Reshet13Provider.CHANNEL_NAMES`. -/
def CHANNEL_NAMES : List (String × String) :=
  [ ("13", "Channel 13"), ("13b", "Channel 13B"), ("13c", "Channel 13C"),
    ("bb", "Big Brother"), ("13comedy", "13 Comedy"), ("13nofesh", "13 Nofesh"),
    ("13reality", "13 Reality"), ("13b2", "13B2") ]

/-- Python `d.get(k, default)` on a string-valued dict. -/
def lookupD (m : List (String × String)) (k d : String) : String :=
  ((m.find? (fun q => q.1 == k)).map Prod.snd).getD d

/-- The provider name passed to `super().__init__` by `Reshet13Provider`. -/
def reshet13_provider_name : String := "reshet13"

/-- `Reshet13Provider.get_channels`: the main channels present in the
stream table (`"13"` is listed but absent from the table, so skipped). -/
def reshet13_get_channels : List Channel :=
  (["13", "13b", "13c", "bb"].filter (fun cid => (lookupStream cid).isSome)).map fun cid =>
    { id := cid,
      name := lookupD CHANNEL_NAMES cid ("Channel " ++ cid),
      url := "reshet13://" ++ cid,
      logo := lookupD CHANNEL_LOGOS cid "",
      provider := reshet13_provider_name }

/-- `Reshet13Provider.get_vods`. -/
def reshet13_get_vods : List VOD :=
  (["13comedy", "13nofesh", "13reality", "13b2"].filter
      (fun cid => (lookupStream cid).isSome)).map fun cid =>
    { id := cid,
      name := lookupD CHANNEL_NAMES cid ("Channel " ++ cid),
      url := "reshet13://" ++ cid,
      poster := lookupD CHANNEL_LOGOS cid "",
      provider := reshet13_provider_name }

/-- The pure part of `Reshet13Provider.resolve_url` (everything after
the link-cache miss): parse the `reshet13://` reference, look the
identifier up in the static table, and downgrade `https://` to
`http://` under HTTP preference.  The `quality` parameter of the source
is unused there and omitted here. -/
def reshet13_resolve_pure (url : String) (prefer_http : Bool) : Option String :=
  if pyStartsWith url "reshet13://" then
    let channel_id := pyReplace url "reshet13://" ""
    match lookupStream channel_id with
    | none => none
    | some stream_data =>
      let stream_url :=
        if prefer_http && pyStartsWith stream_data.link "https://" then
          pyReplace stream_data.link "https://" "http://"
        else stream_data.link
      some stream_url
  else none

/-- `Reshet13Provider.resolve_url`, threading the provider's link cache.
The cache key combines the reference and the protocol preference; a
cache hit is subject to Python truthiness (`if cached_url:`).  The
body's try/except is inert in this pure model — every dict access is
guarded in the source. -/
def reshet13_resolve_url (link : LinkCache) (url : String) (prefer_http : Bool)
    (now : Int) : Option String × LinkCache :=
  let cache_key := url ++ "_" ++ (if prefer_http then "http" else "https")
  let cached? := get_from_link_cache link cache_key now
  if pyTruthy cached? then (cached?, link)
  else
    match reshet13_resolve_pure url prefer_http with
    | none => (none, link)
    | some stream_url => (some stream_url, set_link_cache link cache_key stream_url now)

/-- `Reshet13Provider.get_headers`: the base User-Agent, plus the
table's Referer when a truthy channel id is found in the table. -/
def reshet13_get_headers (channel_id : String) : Headers :=
  { userAgent := USER_AGENT,
    referer :=
      if channel_id ≠ "" then (lookupStream channel_id).bind (fun sd => sd.referer)
      else none }

/-- The channel loop of `BaseProvider.generate_playlist` for Reshet13.
Returns the accumulated playlist body, the final link cache, and the
final field values of each iterated `Channel` object: the source
executes `channel.url = resolved_url` on a successful resolution before
emitting the entry, and skips the entry (leaving the object unchanged)
on failure. -/
def reshet13_playlist_channels_loop (prefer_http : Bool) (now : Int) :
    LinkCache → List Channel → String × LinkCache × List Channel
  | link, [] => ("", link, [])
  | link, ch :: rest =>
    if pyStartsWith ch.url (reshet13_provider_name ++ "://") then
      match reshet13_resolve_url link ch.url prefer_http now with
      | (some resolved, link1) =>
        let ch1 : Channel := { ch with url := resolved }
        let r := reshet13_playlist_channels_loop prefer_http now link1 rest
        (generate_m3u8_entry reshet13_provider_name reshet13_get_headers ch1 true ++ r.1,
         r.2.1, ch1 :: r.2.2)
      | (none, link1) =>
        let r := reshet13_playlist_channels_loop prefer_http now link1 rest
        (r.1, r.2.1, ch :: r.2.2)
    else
      let r := reshet13_playlist_channels_loop prefer_http now link rest
      (generate_m3u8_entry reshet13_provider_name reshet13_get_headers ch true ++ r.1,
       r.2.1, ch :: r.2.2)

/-- The VOD loop of `BaseProvider.generate_playlist` for Reshet13: each
VOD is converted to a fresh `Channel` (as in the source), resolved, and
emitted; failures are skipped. -/
def reshet13_playlist_vods_loop (prefer_http : Bool) (now : Int) :
    LinkCache → List VOD → String × LinkCache × List Channel
  | link, [] => ("", link, [])
  | link, vod :: rest =>
    let ch : Channel :=
      { id := reshet13_provider_name ++ "-vod-" ++ vod.id,
        name := vod.name,
        url := vod.url,
        logo := vod.poster,
        provider := if vod.provider ≠ "" then vod.provider else reshet13_provider_name,
        group_title := pyTitle reshet13_provider_name ++ " VOD" }
    if pyStartsWith ch.url (reshet13_provider_name ++ "://") then
      match reshet13_resolve_url link ch.url prefer_http now with
      | (some resolved, link1) =>
        let ch1 : Channel := { ch with url := resolved }
        let r := reshet13_playlist_vods_loop prefer_http now link1 rest
        (generate_m3u8_entry reshet13_provider_name reshet13_get_headers ch1 true ++ r.1,
         r.2.1, ch1 :: r.2.2)
      | (none, link1) =>
        let r := reshet13_playlist_vods_loop prefer_http now link1 rest
        (r.1, r.2.1, ch :: r.2.2)
    else
      let r := reshet13_playlist_vods_loop prefer_http now link rest
      (generate_m3u8_entry reshet13_provider_name reshet13_get_headers ch true ++ r.1,
       r.2.1, ch :: r.2.2)

/-- `BaseProvider.generate_playlist` for Reshet13.  The third component
is the final state of the `Channel` objects of the channel loop (the
VOD loop builds fresh `Channel`s of its own, handled identically). -/
def reshet13_generate_playlist (link : LinkCache) (prefer_http include_vods : Bool)
    (now : Int) : String × LinkCache × List Channel :=
  let r := reshet13_playlist_channels_loop prefer_http now link reshet13_get_channels
  if include_vods then
    let rv := reshet13_playlist_vods_loop prefer_http now r.2.1 reshet13_get_vods
    ("#EXTM3U\n" ++ r.1 ++ rv.1, rv.2.1, r.2.2)
  else
    ("#EXTM3U\n" ++ r.1, r.2.1, r.2.2)

/-! ## keshet_module.py — ticket/CDN link selection -/

/-- One entry of the `media` list of the playlist AJAX response,
restricted to the fields `_get_link` reads. -/
structure MediaItem where
  cdn : String
  url : String
deriving Repr, DecidableEq

/-- `KeshetProvider._get_link`: pick the first media item whose CDN tag
matches `cdn.upper()`, strip a trailing query string for AKAMAI,
negotiate a ticket (the network-bound `_get_ticket` is the oracle
`ticket`; `none` models each of its failure paths), apply protocol
preference and append the ticket with `&` or `?`.  The source's
`quality` parameter is unused there and omitted. -/
def keshet_get_link (ticket : String → String → Option String)
    (media : List MediaItem) (cdn : String) (prefer_http : Bool) : Option String :=
  let url :=
    match media.find? (fun item => item.cdn == pyUpper cdn) with
    | some item =>
      if pyUpper cdn == "AKAMAI" then
        let pos := pyFindChar item.url '?'
        if pos > 0 then pyTakeTo item.url pos.toNat else item.url
      else item.url
    | none => ""
  if url == "" then none
  else
    match ticket url cdn with
    | none => none
    | some tk =>
      let url1 :=
        if pyStartsWith url "//" then
          (if prefer_http then "http" else "https") ++ ":" ++ url
        else if pyStartsWith url "https://" && prefer_http then
          pyReplace url "https://" "http://"
        else url
      if containsSub url1 "?" then some (url1 ++ "&" ++ tk)
      else some (url1 ++ "?" ++ tk)

/-- The CDN-fallback step of `KeshetProvider._play` (given the parsed
`media` list): `cdns = ['AKAMAI', 'AWS']`, try the primary, and on
`None` try the backup. -/
def keshet_play_from_media (ticket : String → String → Option String)
    (media : List MediaItem) (prefer_http : Bool) : Option String :=
  match keshet_get_link ticket media "AKAMAI" prefer_http with
  | some link => some link
  | none => keshet_get_link ticket media "AWS" prefer_http

/-! ## kan_module.py — the scrape-and-extract resolver -/

/-- The only exception the embedding needs: `KanProvider._get_cached`
evaluates `self.CACHE_TIME` when called without a ttl, and neither
`KanProvider` nor `BaseProvider` defines a `CACHE_TIME` attribute
(base_provider.py defines only `LINK_CACHE_TIME`), so Python raises
`AttributeError` there. -/
inductive PyErr where
  | attributeError
deriving Repr, DecidableEq

/-- The caches of a `KanProvider` instance. -/
structure KanState where
  cache : Cache String
  link : LinkCache

/-- A freshly constructed `KanProvider`. -/
def kanInit : KanState :=
  { cache := emptyCache String, link := emptyLinkCache }

/-- `KanProvider._get_cf`: the source wraps the request in try/except
and maps every non-200 response or exception to `""`, so the network
oracle `fetch` already carries that contract. -/
def kan_get_cf (fetch : String → String) (url : String) : String :=
  fetch url

/-- `KanProvider._get_cached`.  With `ttl = None` — which is how every
call site in the source invokes it — the first statement evaluates the
missing attribute `self.CACHE_TIME` and raises; with an explicit ttl it
consults the content cache (`is not None` test) and stores a truthy
(nonempty) fetched body. -/
def kan_get_cached (fetch : String → String) (s : KanState) (url : String)
    (ttl? : Option Int) (now : Int) : Except PyErr (String × KanState) :=
  match ttl? with
  | none => .error .attributeError
  | some ttl =>
    match get_from_cache s.cache url (some ttl) now with
    | some cached => .ok (cached, s)
    | none =>
      let body := kan_get_cf fetch url
      if body ≠ "" then .ok (body, { s with cache := set_cache s.cache url body now })
      else .ok (body, s)

/-!
Hand-compiled extraction regexes of `KanProvider.resolve_url`.  All are
searched with `re.search` (leftmost start position whose continuation
succeeds, with backtracking) and, where `re.S` is given, `.` crosses
newlines.  `scanFor` tries a continuation at every start position, left
to right; `wsThenChar` realises `\s*?c` (and, for a non-whitespace `c`,
equally the greedy `\s*c`); `groupToChar` realises the lazy group
`(.*?)c`; `groupToBraceSemi` the lazy group of the kaltura pattern.
-/

/-- Leftmost-match search: try `f` at every suffix, left to right. -/
def scanFor {α : Type} (f : List Char → Option α) : List Char → Option α
  | [] => f []
  | c :: rest =>
    match f (c :: rest) with
    | some a => some a
    | none => scanFor f rest

/-- Whitespace then a required character (`\s*?c`, and for non-space `c`
also `\s*c`): consume whitespace up to the first occurrence of `c`,
returning the remainder after it. -/
def wsThenChar (c : Char) : List Char → Option (List Char)
  | [] => none
  | d :: rest =>
    if d = c then some rest
    else if pyIsSpace d then wsThenChar c rest else none

/-- Lazy group up to a character (`(.*?)c` under `re.S`): the group runs
to the first following occurrence of `c`; fail if there is none. -/
def groupToChar (c : Char) : List Char → Option (List Char × List Char)
  | [] => none
  | d :: rest =>
    if d = c then some ([], rest)
    else (groupToChar c rest).map fun g => (d :: g.1, g.2)

/-- Lazy group up to a character without `re.S` (`(.*?)c` where `.` does
not cross a newline): fail if a newline comes before the first `c`. -/
def groupToCharNoNl (c : Char) : List Char → Option (List Char × List Char)
  | [] => none
  | d :: rest =>
    if d = c then some ([], rest)
    else if d = '\n' then none
    else (groupToCharNoNl c rest).map fun g => (d :: g.1, g.2)

/-- Lazy group up to the two-character sequence of a closing brace and a
semicolon (the kaltura pattern's closing delimiter). -/
def groupToBraceSemi : List Char → Option (List Char × List Char)
  | [] => none
  | d :: rest =>
    match d, rest with
    | '\x7d', ';' :: r2 => some ([], r2)
    | _, _ => (groupToBraceSemi rest).map fun g => (d :: g.1, g.2)

/-- Pattern 1, `dailymotion.*?video:\s*?"(.*?)"` with `re.S`: the
captured video identifier. -/
def kanDailymotion (text : String) : Option String :=
  scanFor (fun l =>
    if "dailymotion".toList.isPrefixOf l then
      scanFor (fun l2 =>
        if "video:".toList.isPrefixOf l2 then
          (wsThenChar '"' (l2.drop 6)).bind fun r =>
            (groupToChar '"' r).map fun g => String.mk g.1
        else none) (l.drop 11)
    else none) text.toList

/-- Pattern 2a, `bynetURL:\s*"(.*?)"`. -/
def kanBynetURL (text : String) : Option String :=
  scanFor (fun l =>
    if "bynetURL:".toList.isPrefixOf l then
      (wsThenChar '"' (l.drop 9)).bind fun r =>
        (groupToCharNoNl '"' r).map fun g => String.mk g.1
    else none) text.toList

/-- Pattern 2b, `"UrlRedirector":"(.*?)"`. -/
def kanUrlRedirector (text : String) : Option String :=
  scanFor (fun l =>
    if "\"UrlRedirector\":\"".toList.isPrefixOf l then
      (groupToCharNoNl '"' (l.drop 17)).map fun g => String.mk g.1
    else none) text.toList

/-- The host test of pattern 3, `media\.(ma)?kan\.org\.il` searched in
the processed url. -/
def kanMediaHost (url : String) : Bool :=
  containsSub url "media.makan.org.il" || containsSub url "media.kan.org.il"

/-- Pattern 3, `hls:\s*?"(.*?)"`. -/
def kanHls (text : String) : Option String :=
  scanFor (fun l =>
    if "hls:".toList.isPrefixOf l then
      (wsThenChar '"' (l.drop 4)).bind fun r =>
        (groupToCharNoNl '"' r).map fun g => String.mk g.1
    else none) text.toList

/-- Pattern 4's regex,
`window\.kalturaIframePackageData\s*=\s*\x7b(.*?)\x7d;` (the braces are
written here as their character codes): the captured blob between the
braces. -/
def kanKaltura (text : String) : Option String :=
  scanFor (fun l =>
    if "window.kalturaIframePackageData".toList.isPrefixOf l then
      (wsThenChar '=' (l.drop 31)).bind fun r1 =>
        (wsThenChar '\x7b' r1).bind fun r2 =>
          (groupToBraceSemi r2).map fun g => String.mk g.1
    else none) text.toList

/-- The extraction chain of `KanProvider.resolve_url` (lines following
the fetch): four patterns in priority order, each guarded by
`if not resolved`; `kjson` models the kaltura branch's `json.loads` of
the blob re-wrapped in braces plus the nested
`['entryResult']['meta']['hlsStreamUrl']` access, whose try/except turns
any failure into no result. -/
def kanExtract (kjson : String → Option String) (url text : String) : Option String :=
  let resolved : Option String := kanDailymotion text |>.map
    (fun m => "https://www.dailymotion.com/embed/video/" ++ m)
  let resolved : Option String :=
    match resolved with
    | some r => some r
    | none =>
      if containsSub url "ByPlayer" then
        match
          (match kanBynetURL text with
           | some m => some m
           | none => kanUrlRedirector text) with
        | some m => some (pyReplace (pyReplace m "https" "http") "\\u0026" "&")
        | none => none
      else none
  let resolved : Option String :=
    match resolved with
    | some r => some r
    | none =>
      if kanMediaHost url then kanHls text else none
  match resolved with
  | some r => some r
  | none =>
    if containsSub url "kaltura" then
      match kanKaltura text with
      | some blob => kjson blob
      | none => none
    else none

/-- `KanProvider.resolve_url`.  `fetch` is `_get_cf`'s network oracle
and `kjson` the kaltura JSON oracle.  After a link-cache miss the source
normalises the URL and calls `self._get_cached(url)` — with no ttl — so
`kan_get_cached` raises `AttributeError` there; the remaining extraction,
protocol adjustment and caching are modelled downstream of that call. -/
def kan_resolve_url (fetch : String → String) (kjson : String → Option String)
    (s : KanState) (page_url : String) (prefer_http : Bool) (now : Int) :
    Except PyErr (Option String × KanState) :=
  let cached? := get_from_link_cache s.link page_url now
  if pyTruthy cached? then .ok (cached?, s)
  else
    let url := if prefer_http then pyReplace page_url "https" "http" else page_url
    let i := pyRFind url "http://"
    let url := if i > 0 then pyDropFrom url i.toNat else url
    let url := pyReplace url "HLS/HLS" "HLS"
    match kan_get_cached fetch s url none now with
    | .error e => .error e
    | .ok (text, s1) =>
      let resolved := kanExtract kjson url text
      let resolved :=
        match resolved with
        | some r =>
          if prefer_http && pyStartsWith r "https://" then
            some (pyReplace r "https://" "http://")
          else some r
        | none => none
      match resolved with
      | some r => .ok (some r, { s1 with link := set_link_cache s1.link page_url r now })
      | none => .ok (none, s1)

/-! ## Theorems: supporting lemmas and the claims -/

/-! ## Claim C1 -/

/-- C1: after `set(key, value)` at time `t0`, a `get(key, ttl)` performed
at time `t` returns the stored value iff `t - t0 < ttl`; a key never
stored, and an entry whose timestamp field is missing, both yield a miss
(`none`).  `get_from_cache` is a total Lean function, so no exception is
possible on any of these paths. -/
theorem cache_get_set_contract {V : Type} (c : Cache V) (k k2 : String) (v : V)
    (ttl t0 t : Int) :
    (get_from_cache (set_cache c k v t0) k (some ttl) t
        = if t - t0 < ttl then some v else none)
    ∧ (c k2 = none → get_from_cache c k2 (some ttl) t = none)
    ∧ (∀ e : CacheEntry V, c k2 = some e → e.t = none →
        get_from_cache c k2 (some ttl) t = none) := by
  refine ⟨?_, ?_, ?_⟩
  · simp [get_from_cache, set_cache, is_cache_valid]
  · intro h
    simp [get_from_cache, h]
  · intro e he ht
    simp [get_from_cache, he, is_cache_valid, ht]

/-- Witness for C1: a concrete store at time 0 read back at time 3 with
ttl 10 hits; an unknown key misses. -/
theorem cache_get_set_contract_witness :
    get_from_cache (set_cache (emptyCache Nat) "a" 7 0) "a" (some 10) 3 = some 7
    ∧ get_from_cache (emptyCache Nat) "b" (some 10) 3 = none := by
  constructor
  · have h := (cache_get_set_contract (emptyCache Nat) "a" "b" 7 10 0 3).1
    simpa using h
  · exact (cache_get_set_contract (emptyCache Nat) "a" "b" 7 10 0 3).2.1 rfl

/-- When the next line is not whitespace-only, a pending absorption has
no effect. -/
theorem rewriteLinesGo_true_of_not_ws (base : String) (b : String) (rest : List String)
    (hb : isWsOnly b = false) :
    rewriteLinesGo base true (b :: rest) = rewriteLinesGo base false (b :: rest) := by
  simp [rewriteLinesGo, hb]

/-- Under `noBlankAfterTs`, the rewrite maps each line independently. -/
theorem rewriteLines_eq_map (base : String) :
    ∀ ls : List String, noBlankAfterTs ls = true →
      rewriteLines base ls
        = ls.map fun l => if tsLineMatches l then tsSub base l else l := by
  intro ls
  induction ls with
  | nil => intro _; rfl
  | cons a as ih =>
    intro h
    rw [noBlankAfterTs.eq_def, Bool.and_eq_true] at h
    obtain ⟨h1, h2⟩ := h
    by_cases hm : tsLineMatches a
    · cases as with
      | nil =>
        simp [rewriteLines, rewriteLinesGo, hm]
      | cons b rest =>
        have hb : isWsOnly b = false := by
          simp only [hm, Bool.not_true, Bool.false_or, Bool.not_eq_true'] at h1
          exact h1
        show rewriteLinesGo base false (a :: b :: rest) = _
        rw [rewriteLinesGo]
        simp only [Bool.false_and, Bool.not_eq_true, if_false, if_pos hm, List.map_cons,
          if_pos hm]
        rw [rewriteLinesGo_true_of_not_ws base b rest hb]
        have ih' : rewriteLinesGo base false (b :: rest)
            = List.map (fun l => if tsLineMatches l = true then tsSub base l else l)
                (b :: rest) := ih h2
        rw [ih', List.map_cons]
        simp
    · show rewriteLinesGo base false (a :: as) = _
      rw [rewriteLinesGo]
      simp only [Bool.false_and, if_false, if_neg hm, List.map_cons, if_neg hm]
      have ih' : rewriteLinesGo base false as
          = List.map (fun l => if tsLineMatches l = true then tsSub base l else l) as := ih h2
      rw [ih']
      simp

/-! ## Claim C2 -/

/-- C2 counterexample: in `"a.ts\n\n#c"` the blank line that follows the
segment line is absorbed by the rewrite (the regex's trailing `\s*`
consumes the newline before it), so it does not pass through: the output
has two lines where the claim requires the blank line preserved among
three. -/
theorem rewrite_blank_line_not_preserved :
    rewrite_variant_for_ts "http://h" "a.ts\n\n#c" = "http://h/segments/a.ts\n#c"
    ∧ (pySplitNl (rewrite_variant_for_ts "http://h" "a.ts\n\n#c")).length = 2
    ∧ (pySplitNl "a.ts\n\n#c").length = 3 := by
  refine ⟨by decide, by decide, by decide⟩

/-- C2 (amended): a line is replaced iff it does not start with `#` and
its right-stripped text ends in `.ts`, and the replacement carries the
stripped original path under `base ++ "/segments/"`.  Provided no
whitespace-only line immediately follows a replaceable segment line,
every line is processed independently: all non-matching lines (comments,
directives, non-segment lines) pass through unchanged and in their
original order.  (A whitespace-only line directly after a matching line
is instead absorbed by the replacement, as the counterexample shows.) -/
theorem rewrite_variant_per_line (base text : String)
    (h : noBlankAfterTs (pySplitNl text) = true) :
    rewrite_variant_for_ts base text
      = joinNl ((pySplitNl text).map fun l => if tsLineMatches l then tsSub base l else l) := by
  unfold rewrite_variant_for_ts
  rw [rewriteLines_eq_map base _ h]

/-- Witness for C2 on a three-line manifest with no blank line after the
segment line. -/
theorem rewrite_variant_per_line_witness :
    noBlankAfterTs (pySplitNl "#EXTM3U\nseg1.ts\n#EXT-X-ENDLIST") = true
    ∧ rewrite_variant_for_ts "http://h" "#EXTM3U\nseg1.ts\n#EXT-X-ENDLIST"
        = "#EXTM3U\nhttp://h/segments/seg1.ts\n#EXT-X-ENDLIST" := by
  constructor
  · decide
  · rw [rewrite_variant_per_line "http://h" "#EXTM3U\nseg1.ts\n#EXT-X-ENDLIST" (by decide)]
    decide

/-! ## Claim C4 -/

/-- C4 counterexample: the rewrite is not idempotent.  A rewritten
segment line still ends in `.ts`, so a second application prefixes it
again. -/
theorem rewrite_not_idempotent :
    rewrite_variant_for_ts "http://h" (rewrite_variant_for_ts "http://h" "a.ts")
      = "http://h/segments/http://h/segments/a.ts"
    ∧ rewrite_variant_for_ts "http://h" (rewrite_variant_for_ts "http://h" "a.ts")
      ≠ rewrite_variant_for_ts "http://h" "a.ts" := by
  refine ⟨by decide, by decide⟩

/-- C4 (amended): idempotence fails — whenever a rewritten segment line
still matches the segment regex (it ends in `.ts`), a second application
prefixes it again; and a single application preserves the number of
lines of any input in which no whitespace-only line immediately follows
a segment line. -/
theorem rewrite_preserves_line_count (base : String) (lines : List String)
    (h : noBlankAfterTs lines = true) :
    (rewriteLines base lines).length = lines.length
    ∧ ∀ l, tsLineMatches (tsSub base l) = true →
        rewriteLines base [tsSub base l] = [tsSub base (tsSub base l)] := by
  constructor
  · rw [rewriteLines_eq_map base lines h]
    exact List.length_map _ _
  · intro l hl
    simp [rewriteLines, rewriteLinesGo, hl]

/-- Witness for C4 on a concrete manifest: line count preserved, and the
rewritten line `http://h/segments/a.ts` is prefixed again. -/
theorem rewrite_preserves_line_count_witness :
    noBlankAfterTs ["#EXTM3U", "seg1.ts", "#EXT-X-ENDLIST"] = true
    ∧ (rewriteLines "http://h" ["#EXTM3U", "seg1.ts", "#EXT-X-ENDLIST"]).length = 3
    ∧ rewriteLines "http://h" [tsSub "http://h" "a.ts"]
      = [tsSub "http://h" (tsSub "http://h" "a.ts")] := by
  have h := rewrite_preserves_line_count "http://h" ["#EXTM3U", "seg1.ts", "#EXT-X-ENDLIST"]
    (by decide)
  refine ⟨by decide, ?_, h.2 "a.ts" (by decide)⟩
  rw [h.1]
  decide

/-! ## Claim C8 -/

/-- Looking up the key just written to the link cache: a hit while
fresh, a miss after expiry. -/
theorem get_set_link_cache_same (c : LinkCache) (k v : String) (t1 t2 : Int) :
    get_from_link_cache (set_link_cache c k v t1) k t2
      = if t2 - t1 < LINK_CACHE_TIME then some v else none := by
  simp [get_from_link_cache, set_link_cache, is_cache_valid]

/-- A resolve from an empty link cache returns the pure table result. -/
theorem reshet13_resolve_empty_fst (u : String) (p : Bool) (t : Int) :
    (reshet13_resolve_url emptyLinkCache u p t).1 = reshet13_resolve_pure u p := by
  cases h : reshet13_resolve_pure u p <;>
    simp [reshet13_resolve_url, get_from_link_cache, emptyLinkCache, pyTruthy, h]

/-- Re-resolving the same reference with the same preference, threading
the cache produced by a first resolve from a fresh provider, returns the
same result at any pair of times (cache hit or identical
recomputation). -/
theorem reshet13_resolve_twice_eq (u : String) (p : Bool) (t1 t2 : Int) :
    (reshet13_resolve_url (reshet13_resolve_url emptyLinkCache u p t1).2 u p t2).1
      = (reshet13_resolve_url emptyLinkCache u p t1).1 := by
  cases hpure : reshet13_resolve_pure u p with
  | none =>
    simp [reshet13_resolve_url, get_from_link_cache, emptyLinkCache, pyTruthy, hpure]
  | some v =>
    have h1 : reshet13_resolve_url emptyLinkCache u p t1
        = (some v,
           set_link_cache emptyLinkCache
             (u ++ "_" ++ (if p then "http" else "https")) v t1) := by
      simp [reshet13_resolve_url, get_from_link_cache, emptyLinkCache, pyTruthy, hpure]
    rw [h1]
    by_cases hfresh : t2 - t1 < LINK_CACHE_TIME
    · by_cases hv : v = ""
      · subst hv
        simp [reshet13_resolve_url, get_set_link_cache_same, hfresh, pyTruthy, hpure]
      · simp [reshet13_resolve_url, get_set_link_cache_same, hfresh, pyTruthy, hv]
    · simp [reshet13_resolve_url, get_set_link_cache_same, hfresh, pyTruthy, hpure]

/-- C8: for every identifier present in the static table, resolving the
same `reshet13://` reference twice with the same protocol preference
(threading the fresh provider's cache, at arbitrary times) yields
byte-identical output; under HTTP preference the result never starts
with `https://`; and `reshet13://13b` under HTTP preference resolves to
its table URL with `https://` replaced by `http://`. -/
theorem reshet13_static_resolution (cid : String) (sd : StreamData)
    (hmem : (cid, sd) ∈ CHANNEL_13_STREAMS) (p : Bool) (t1 t2 : Int) :
    ((reshet13_resolve_url (reshet13_resolve_url emptyLinkCache ("reshet13://" ++ cid) p t1).2
        ("reshet13://" ++ cid) p t2).1
      = (reshet13_resolve_url emptyLinkCache ("reshet13://" ++ cid) p t1).1)
    ∧ (∀ v, (reshet13_resolve_url emptyLinkCache ("reshet13://" ++ cid) true t1).1 = some v →
        pyStartsWith v "https://" = false)
    ∧ ((reshet13_resolve_url emptyLinkCache "reshet13://13b" true t1).1
        = some "http://d18b0e6mopany4.cloudfront.net/out/v1/2f2bc414a3db4698a8e94b89eaf2da2a/index.m3u8") := by
  refine ⟨reshet13_resolve_twice_eq _ p t1 t2, ?_, ?_⟩
  · intro v hv
    rw [reshet13_resolve_empty_fst] at hv
    have hall : CHANNEL_13_STREAMS.all
        (fun q => match reshet13_resolve_pure ("reshet13://" ++ q.1) true with
          | some w => !pyStartsWith w "https://"
          | none => true) = true := by decide
    have hq := List.all_eq_true.mp hall (cid, sd) hmem
    rw [hv] at hq
    simpa using hq
  · rw [reshet13_resolve_empty_fst]
    decide

/-- Witness for C8 at identifier `13b`, HTTP preference, times 0 and 1. -/
theorem reshet13_static_resolution_witness :
    ("13b",
      ({ referer := some "https://13tv.co.il/live/",
         link := "https://d18b0e6mopany4.cloudfront.net/out/v1/2f2bc414a3db4698a8e94b89eaf2da2a/index.m3u8" }
        : StreamData)) ∈ CHANNEL_13_STREAMS
    ∧ ((reshet13_resolve_url (reshet13_resolve_url emptyLinkCache "reshet13://13b" true 0).2
          "reshet13://13b" true 1).1
        = (reshet13_resolve_url emptyLinkCache "reshet13://13b" true 0).1)
    ∧ ((reshet13_resolve_url emptyLinkCache "reshet13://13b" true 0).1
        = some "http://d18b0e6mopany4.cloudfront.net/out/v1/2f2bc414a3db4698a8e94b89eaf2da2a/index.m3u8") := by
  have h := reshet13_static_resolution "13b"
    { referer := some "https://13tv.co.il/live/",
      link := "https://d18b0e6mopany4.cloudfront.net/out/v1/2f2bc414a3db4698a8e94b89eaf2da2a/index.m3u8" }
    (by decide) true 0 1
  exact ⟨by decide, h.1, h.2.2⟩

/-! ## Claim C9 -/

/-- C9 counterexample: playlist generation mutates `Channel.url`.  The
channels constructed by `get_channels` carry `reshet13://` references,
but after `generate_playlist(prefer_http=True)` the same objects carry
the resolved stream URLs. -/
theorem generate_playlist_mutates_channel_url :
    reshet13_get_channels.map Channel.url = ["reshet13://13b", "reshet13://13c", "reshet13://bb"]
    ∧ (reshet13_generate_playlist emptyLinkCache true false 0).2.2.map Channel.url
      = ["http://d18b0e6mopany4.cloudfront.net/out/v1/2f2bc414a3db4698a8e94b89eaf2da2a/index.m3u8",
         "http://reshet.g-mana.live/media/4607e158-e4d4-4e18-9160-3dc3ea9bc677/mainManifest.m3u8",
         "http://d2lckchr9cxrss.cloudfront.net/out/v1/c73af7694cce4767888c08a7534b503c/index.m3u8"] := by
  refine ⟨by decide, by decide⟩

/-- C9 (amended): playlist generation mutates exactly the `url` field of
each `Channel` object whose url is a provider-scoped reference,
overwriting it with the resolved URL (an object whose resolution fails
is left unchanged and its entry skipped); every other field is
preserved.  For the Reshet13 provider from a fresh cache, every channel
resolves, so the post-loop objects are the constructed ones with only
`url` replaced. -/
theorem generate_playlist_mutates_only_url (p : Bool) (t : Int) :
    (reshet13_generate_playlist emptyLinkCache p false t).2.2
      = reshet13_get_channels.map fun ch =>
          { ch with url := (reshet13_resolve_pure ch.url p).getD ch.url } := by
  cases p <;> rfl

/-! ## Claim C6 -/

/-- C6: for a media listing with an AWS-tagged candidate and no
AKAMAI-tagged candidate, the AKAMAI branch yields no link — without any
exception, `keshet_get_link` being a total function whose no-match path
returns `none` — and the fallback then attempts the AWS branch. -/
theorem keshet_aws_fallback (ticket : String → String → Option String)
    (media : List MediaItem) (p : Bool)
    (hak : ∀ item ∈ media, item.cdn ≠ "AKAMAI")
    (_haws : ∃ item ∈ media, item.cdn = "AWS") :
    keshet_get_link ticket media "AKAMAI" p = none
    ∧ keshet_play_from_media ticket media p = keshet_get_link ticket media "AWS" p := by
  have hup : pyUpper "AKAMAI" = "AKAMAI" := rfl
  have hfind : media.find? (fun item => item.cdn == pyUpper "AKAMAI") = none := by
    rw [List.find?_eq_none]
    intro item hmem
    rw [hup]
    simpa using hak item hmem
  have h1 : keshet_get_link ticket media "AKAMAI" p = none := by
    simp [keshet_get_link, hfind]
  exact ⟨h1, by simp [keshet_play_from_media, h1]⟩

/-- Witness for C6: a one-item AWS-only listing with an always-granting
ticket oracle. -/
theorem keshet_aws_fallback_witness :
    (∀ item ∈ [({ cdn := "AWS", url := "https://aws.example/v.m3u8" } : MediaItem)],
        item.cdn ≠ "AKAMAI")
    ∧ keshet_get_link (fun _ _ => some "tk")
        [{ cdn := "AWS", url := "https://aws.example/v.m3u8" }] "AKAMAI" false = none
    ∧ keshet_play_from_media (fun _ _ => some "tk")
        [{ cdn := "AWS", url := "https://aws.example/v.m3u8" }] false
      = keshet_get_link (fun _ _ => some "tk")
          [{ cdn := "AWS", url := "https://aws.example/v.m3u8" }] "AWS" false := by
  have h := keshet_aws_fallback (fun _ _ => some "tk")
    [{ cdn := "AWS", url := "https://aws.example/v.m3u8" }] false
    (by decide) ⟨_, List.mem_singleton_self _, rfl⟩
  exact ⟨by decide, h.1, h.2⟩

/-! ## Claim C3 -/

/-- C3 (code bug): for every page URL, preference, oracle pair and time,
a `resolve_url` call on a fresh provider — whose link cache necessarily
misses — raises `AttributeError` out of `_get_cached` (`self.CACHE_TIME`
is defined nowhere), contradicting the claim that the resolver returns a
URL or a miss and never lets an exception escape. -/
theorem kan_resolve_url_raises (fetch : String → String) (kjson : String → Option String)
    (page_url : String) (p : Bool) (now : Int) :
    kan_resolve_url fetch kjson kanInit page_url p now = .error .attributeError := rfl

/-! ## Claim C5 -/

/-- C5 (code bug): the claim's end-to-end scenario — a fetched page
whose body matches both the dailymotion pattern (a) and the `hls:`
pattern (c) — does not resolve to the dailymotion embed URL: the call
raises `AttributeError` before any extraction runs (the same defect as
C3).  The second and third conjuncts evaluate the extraction chain the
source would run after the fetch: on this body pattern (a) wins and
produces the embed URL construction, protocol-downgraded. -/
theorem kan_dailymotion_page_raises :
    kan_resolve_url
        (fun _ => "player dailymotion cfg video: \"XYZ123\" more hls: \"https://x/m.m3u8\"")
        (fun _ => none) kanInit "https://www.kan.org.il/page" true 0
      = .error .attributeError
    ∧ kanDailymotion
        "player dailymotion cfg video: \"XYZ123\" more hls: \"https://x/m.m3u8\""
      = some "XYZ123"
    ∧ kanExtract (fun _ => none) "http://media.kan.org.il/page"
        "player dailymotion cfg video: \"XYZ123\" more hls: \"https://x/m.m3u8\""
      = some "https://www.dailymotion.com/embed/video/XYZ123" := by
  refine ⟨rfl, by decide, by decide⟩

/-! ## Claim C7 -/

/-- C7 counterexample: the link-cache key does not include the protocol
preference.  Seeding the cache through the code's own store operation —
`_set_link_cache(page_url, resolved)`, exactly what a successful
HTTP-preference resolution executes, keyed by the page URL alone — a
resolve call with the opposite preference returns that very value. -/
theorem kan_link_cache_ignores_preference :
    kan_resolve_url (fun _ => "") (fun _ => none)
        { cache := emptyCache String,
          link := set_link_cache emptyLinkCache "http://ex.com/p" "http://stream.example/v.m3u8" 0 }
        "http://ex.com/p" false 0
      = .ok (some "http://stream.example/v.m3u8",
          { cache := emptyCache String,
            link := set_link_cache emptyLinkCache "http://ex.com/p" "http://stream.example/v.m3u8" 0 }) := rfl

/-- C7 (amended): `resolve_url` reads the link cache under the page URL
alone (line 162) and its store uses the same preference-free key
(line 211), so a fresh, truthy cached result for a page URL is returned
unchanged for either protocol preference. -/
theorem kan_link_cache_key_is_page_url (fetch : String → String)
    (kjson : String → Option String) (s : KanState) (page_url v : String)
    (t now : Int) (hv : v ≠ "") (hfresh : now - t < LINK_CACHE_TIME) (p : Bool) :
    kan_resolve_url fetch kjson { s with link := set_link_cache s.link page_url v t }
        page_url p now
      = .ok (some v, { s with link := set_link_cache s.link page_url v t }) := by
  have hget : get_from_link_cache (set_link_cache s.link page_url v t) page_url now
      = some v := by
    rw [get_set_link_cache_same]
    exact if_pos hfresh
  simp [kan_resolve_url, hget, pyTruthy, hv]

/-- Witness for C7's amended statement: a value stored at time 0 is
returned under both preferences at time 1. -/
theorem kan_link_cache_key_is_page_url_witness :
    kan_resolve_url (fun _ => "") (fun _ => none)
        { kanInit with link := set_link_cache kanInit.link "http://ex.com/p" "https://s.m3u8" 0 }
        "http://ex.com/p" true 1
      = .ok (some "https://s.m3u8",
          { kanInit with link := set_link_cache kanInit.link "http://ex.com/p" "https://s.m3u8" 0 })
    ∧ kan_resolve_url (fun _ => "") (fun _ => none)
        { kanInit with link := set_link_cache kanInit.link "http://ex.com/p" "https://s.m3u8" 0 }
        "http://ex.com/p" false 1
      = .ok (some "https://s.m3u8",
          { kanInit with link := set_link_cache kanInit.link "http://ex.com/p" "https://s.m3u8" 0 }) := by
  constructor
  · exact kan_link_cache_key_is_page_url (fun _ => "") (fun _ => none) kanInit
      "http://ex.com/p" "https://s.m3u8" 0 1 (by decide) (by decide) true
  · exact kan_link_cache_key_is_page_url (fun _ => "") (fun _ => none) kanInit
      "http://ex.com/p" "https://s.m3u8" 0 1 (by decide) (by decide) false

/-! ## Claim C10 -/

/-- C10: when the upstream fetch fails (the oracle yields the empty
body, as `_get_cf` does for every non-200 or raised request),
`_get_cached` with an explicit ttl leaves the content cache exactly as
it was; if the URL has no cache entry the call returns the empty body,
and a subsequent call consults the upstream oracle again rather than
serving the failure from the cache. -/
theorem kan_fetch_failure_not_cached (fetch : String → String) (s : KanState)
    (url : String) (ttl now : Int) (hf : fetch url = "") :
    (∃ r, kan_get_cached fetch s url (some ttl) now = .ok (r, s))
    ∧ (s.cache url = none →
        kan_get_cached fetch s url (some ttl) now = .ok ("", s)
        ∧ ∀ (fetch2 : String → String) (ttl2 now2 : Int),
            kan_get_cached fetch2 s url (some ttl2) now2
              = .ok (fetch2 url,
                  if fetch2 url ≠ "" then
                    { s with cache := set_cache s.cache url (fetch2 url) now2 }
                  else s)) := by
  constructor
  · match hc : get_from_cache s.cache url (some ttl) now with
    | some cached =>
      exact ⟨cached, by simp [kan_get_cached, hc]⟩
    | none =>
      exact ⟨"", by simp [kan_get_cached, hc, kan_get_cf, hf]⟩
  · intro hnone
    have hmiss : ∀ ttl' now' : Int, get_from_cache s.cache url (some ttl') now' = none := by
      intro ttl' now'
      simp [get_from_cache, hnone]
    constructor
    · simp [kan_get_cached, hmiss, kan_get_cf, hf]
    · intro fetch2 ttl2 now2
      by_cases h2 : fetch2 url = ""
      · simp [kan_get_cached, hmiss, kan_get_cf, h2]
      · simp [kan_get_cached, hmiss, kan_get_cf, h2]

/-- Witness for C10: a failed fetch of `"u"` on a fresh provider stores
nothing, and a later successful fetch stores its body. -/
theorem kan_fetch_failure_not_cached_witness :
    kan_get_cached (fun _ => "") kanInit "u" (some 3600) 0 = .ok ("", kanInit)
    ∧ kan_get_cached (fun _ => "B") kanInit "u" (some 3600) 5
      = .ok ("B", { kanInit with cache := set_cache kanInit.cache "u" "B" 5 }) := by
  have h := (kan_fetch_failure_not_cached (fun _ => "") kanInit "u" 3600 0 rfl).2 rfl
  refine ⟨h.1, ?_⟩
  have h2 := h.2 (fun _ => "B") 3600 5
  simpa using h2

end IPTV
